import Mathlib

/-!
Verification development for the TREND CREATOR DASHBOARD ingestion pipeline.

The development shallowly embeds the ingestion-orchestration subsystem:

* `ProgressManager` (src/unnamed/part_000): the singleton progress tracker,
  embedded as a pure state type `ScrapingStatus` with one function per
  mutating method, plus a reference-cell model of the JS object graph for
  the aliasing question around `getStatus`.
* `TrendScraper.scrapeAllSources` (src/unnamed/part_006 and
  src/src/scrapers/TrendScraper.ts): the single-run guard, embedded with
  the body of the run abstracted as a continuation, since the guard's
  behavior is independent of it.
* The fallback extraction cascade `applyFallbackExtraction` /
  `scrapeAxios` (src/unnamed/part_006): embedded parametrically in the
  outcome of each strategy (the strategies themselves walk a cheerio DOM
  or call an LLM, so each is modeled by the value it returns or the
  exception it throws).
* The Apify poll loop (src/src/scrapers/sources/apify-instagram-hashtag-stats.ts,
  both sources in that file share the loop verbatim): embedded as a
  fuel-indexed structural recursion equivalent to the `while` loop.

JavaScript numbers are modeled as `Rat` where fractional values occur
(percentages) and as `Nat` where the code only ever stores counts.
`Date`-valued bookkeeping fields (`startTime`, `completedTime`,
`lastUpdate`) are omitted: no claim mentions them and they are sourced
from the wall clock.
-/

namespace TrendDash

/-- Record shape produced by extraction (`TrendData` in src/src/types).
The `timestamp : Date` and open-ended `metadata` fields are omitted
(wall clock and untyped payload; no claim depends on them). -/
structure TrendData where
  hashtag : String
  popularity : String
  category : String
  platform : String
  region : String
deriving DecidableEq, Repr

/-- Status values of one source's progress entry (part_000, `SourceProgress.status`). -/
inductive SourceStatus
  | pending
  | running
  | completed
  | failed
deriving DecidableEq, Repr

/-- One per-source progress entry (part_000, interface `SourceProgress`).
The `startTime`/`completedTime` Date fields are omitted (wall clock). -/
structure SourceProgress where
  name : String
  status : SourceStatus
  progress : Rat
  trends : Nat
  error : Option String := none
  details : Option String := none
deriving DecidableEq, Repr

instance : Inhabited SourceProgress :=
  ⟨{ name := "", status := .pending, progress := 0, trends := 0 }⟩

/-- The tracker's whole state (part_000, interface `ScrapingStatus`).
The `startTime`/`lastUpdate` Date fields are omitted (wall clock). -/
structure ScrapingStatus where
  isRunning : Bool
  currentSource : Option String
  progress : Rat
  totalSources : Nat
  completedSources : Nat
  trends : List TrendData
  errors : List String
  sources : List SourceProgress
deriving DecidableEq, Repr

/-- Default source names used by `initializeScraping` when none are passed (part_000). -/
def defaultSources : List String :=
  ["Apify TikTok Hashtag Trends", "Apify Instagram Hashtag Stats", "Trends24 (X/Twitter US)"]

/-- Fresh per-source entry created at session initialization (part_000 lines 77-83). -/
def initEntry (name : String) : SourceProgress :=
  { name := name, status := .pending, progress := 0, trends := 0
    details := some ("Waiting to start...") }

/-- State produced by `ProgressManager.initializeScraping` (part_000 lines 56-85). -/
def initScraping (sourceNames : Option (List String)) : ScrapingStatus :=
  let names := sourceNames.getD defaultSources
  { isRunning := true
    currentSource := none
    progress := 0
    totalSources := names.length
    completedSources := 0
    trends := []
    errors := []
    sources := names.map initEntry }

/-- Boolean test that `chars` is a prefix of the second list, character by
character; building block for the JS `String.prototype.includes` model. -/
def startsWithChars : List Char → List Char → Bool
  | [], _ => true
  | _ :: _, [] => false
  | a :: as, b :: bs => a == b && startsWithChars as bs

/-- Boolean test that `needle` occurs as a contiguous segment of the second
list; building block for the JS `String.prototype.includes` model. -/
def hasSegChars (needle : List Char) : List Char → Bool
  | [] => needle.isEmpty
  | b :: bs => startsWithChars needle (b :: bs) || hasSegChars needle bs

/-- Model of JS `hay.includes(needle)`: case-sensitive substring containment. -/
def strIncludes (hay needle : String) : Bool :=
  hasSegChars needle.data hay.data

/-- Characters before the first space of a character list. -/
def firstTokenChars : List Char → List Char
  | [] => []
  | c :: cs => if c = ' ' then [] else c :: firstTokenChars cs

/-- Model of JS `s.split(' ')[0]`: the first space-delimited token of `s`
(empty when `s` is empty or starts with a space, as in JS). -/
def firstToken (s : String) : String :=
  ⟨firstTokenChars s.data⟩

/-- Model of JS `Array.prototype.findIndex`: index of the first element
satisfying `p`, or `none` where JS returns `-1`. -/
def jsFindIndex {α : Type} (p : α → Bool) : List α → Option Nat
  | [] => none
  | a :: rest => if p a then some 0 else (jsFindIndex p rest).map (· + 1)

/-- The lookup performed by `updateSourceProgress` (part_000 line 88):
`this.status.sources.findIndex(s => s.name.includes(sourceName.split(' ')[0]))`. -/
def findSourceIdx (sources : List SourceProgress) (sourceName : String) : Option Nat :=
  jsFindIndex (fun s => strIncludes s.name (firstToken sourceName)) sources

/-- Count of sources whose status is completed or failed; the expression
`this.status.sources.filter(s => s.status === 'completed' || s.status === 'failed').length`
recomputed by `updateSourceProgress` (part_000 line 104). -/
def completedCount (sources : List SourceProgress) : Nat :=
  (sources.filter fun s => s.status == .completed || s.status == .failed).length

/-- State transformer for `ProgressManager.updateSourceProgress`
(part_000 lines 87-111).  When the lookup fails the method only logs a
warning, so the state is unchanged; otherwise the matched entry is
overwritten with the given arguments, `completedSources` is recomputed
from the statuses, and the aggregate `progress` is recomputed as
`(completedSources / totalSources) * 100`. -/
def updateSourceProgress (st : ScrapingStatus) (sourceName : String) (status : SourceStatus)
    (progress : Rat) (trends : Nat) (details : Option String) (error : Option String) :
    ScrapingStatus :=
  match findSourceIdx st.sources sourceName with
  | none => st
  | some i =>
    let old := st.sources.getD i default
    let sources := st.sources.set i
      { old with status := status, progress := progress, trends := trends
                 details := details, error := error }
    let completed := completedCount sources
    { st with
      sources := sources
      currentSource := if status == .running then some sourceName else none
      completedSources := completed
      progress := ((completed : Rat) / (st.totalSources : Rat)) * 100 }

/-- State transformer for `ProgressManager.completeScraping` (part_000 lines 113-119). -/
def completeScraping (st : ScrapingStatus) (trends : List TrendData) : ScrapingStatus :=
  { st with isRunning := false, progress := 100, trends := trends }

/-- State transformer for `ProgressManager.addError` (part_000 lines 121-124). -/
def addError (st : ScrapingStatus) (error : String) : ScrapingStatus :=
  { st with errors := st.errors ++ [error] }

/-- Arguments of one `updateSourceProgress` call; used to quantify over
arbitrary interleavings of update calls. -/
structure UpdateCall where
  sourceName : String
  status : SourceStatus
  progress : Rat
  trends : Nat
  details : Option String
  error : Option String
deriving DecidableEq, Repr

/-- Folds a sequence of `updateSourceProgress` calls over a tracker state. -/
def applyUpdates (st : ScrapingStatus) (calls : List UpdateCall) : ScrapingStatus :=
  calls.foldl
    (fun s c => updateSourceProgress s c.sourceName c.status c.progress c.trends c.details c.error)
    st

/-- Result value of `TrendScraper.scrapeAllSources` (part_006 line 49:
`Promise<\x7b trends: any[], report: string \x7d>`). -/
structure ScrapeResult where
  trends : List TrendData
  report : String
deriving DecidableEq, Repr

/-- State owned or reached by `TrendScraper.scrapeAllSources`: the scraper's
private `isRunning` flag together with the `progressManager` singleton state. -/
structure ScraperState where
  isRunning : Bool
  pm : ScrapingStatus
deriving DecidableEq, Repr

/-- Embedding of `TrendScraper.scrapeAllSources` (part_006 lines 49-170 and
src/src/scrapers/TrendScraper.ts lines 50-62).  The guard is transcribed
verbatim: when `isRunning` is already true the method returns
`\x7b trends: [], report: 'Scraping already in progress' \x7d` having touched
nothing.  Otherwise it sets `isRunning := true` and executes the scraping
body; the body (network access, per-source loop, cleanup, clearing the
flag) is abstracted as the continuation `runBody`, because the claims
settled here only concern the guard branch, which cannot observe it. -/
def scrapeAllSources (st : ScraperState)
    (runBody : ScraperState → ScraperState × ScrapeResult) : ScraperState × ScrapeResult :=
  if st.isRunning then
    (st, { trends := [], report := "Scraping already in progress" })
  else
    runBody { st with isRunning := true }

/-- Names of the fallback extraction strategies applied by
`TrendScraper.applyFallbackExtraction` (part_006 lines 310-343), in order. -/
inductive Strat
  | hashtagPattern
  | textPattern
  | urlPattern
  | aiAnalysis
deriving DecidableEq, Repr

/-- Outcome of running one fallback strategy on the raw content of one
source: the record list it returns, or the exception it throws.  The real
strategies traverse a cheerio DOM (strategies 1-3) or call the LLM service
(strategy 4); each is modeled by its outcome, which is all the cascade
observes. -/
def StratRun : Type :=
  Strat → Except String (List TrendData)

/-- Embedding of `TrendScraper.extractWithAIAnalysis` (part_006 lines
439-499) at the level visible to the cascade: its body is wrapped in its
own try/catch, so a thrown error yields `[]`; on success it yields the
parsed, confidence-filtered list (modeled as the strategy's outcome). -/
def extractWithAIAnalysis (run : StratRun) : List TrendData :=
  match run .aiAnalysis with
  | .ok l => l
  | .error _ => []

/-- Strategies 1-3 of `TrendScraper.applyFallbackExtraction` (part_006
lines 317-331): strategy 1 always runs; strategy 2 runs when fewer than 3
records are accumulated; strategy 3 likewise.  Results are appended by
`trends.push(...)` with no deduplication against earlier strategies.
None of these calls sits in a try/catch, so a thrown error propagates out
of the cascade at once (modeled by `Except.error`).  The second component
records which strategies were invoked, in order. -/
def fallbackSteps123 (run : StratRun) : Except String (List TrendData) × List Strat :=
  match run .hashtagPattern with
  | .error e => (.error e, [.hashtagPattern])
  | .ok t1 =>
    if t1.length < 3 then
      match run .textPattern with
      | .error e => (.error e, [.hashtagPattern, .textPattern])
      | .ok t2 =>
        if (t1 ++ t2).length < 3 then
          match run .urlPattern with
          | .error e => (.error e, [.hashtagPattern, .textPattern, .urlPattern])
          | .ok t3 =>
            (.ok ((t1 ++ t2) ++ t3), [.hashtagPattern, .textPattern, .urlPattern])
        else (.ok (t1 ++ t2), [.hashtagPattern, .textPattern])
    else (.ok t1, [.hashtagPattern])

/-- Embedding of `TrendScraper.applyFallbackExtraction` (part_006 lines
310-343): after strategies 1-3, strategy 4 (AI, with its internal
try/catch) runs only when fewer than 2 records are accumulated; the final
result is capped to 10 by `trends.slice(0, 10)`. -/
def applyFallbackExtraction (run : StratRun) : Except String (List TrendData) × List Strat :=
  match fallbackSteps123 run with
  | (.error e, invoked) => (.error e, invoked)
  | (.ok trends, invoked) =>
    if trends.length < 2 then
      (.ok ((trends ++ extractWithAIAnalysis run).take 10), invoked ++ [.aiAnalysis])
    else (.ok (trends.take 10), invoked)

/-- Extraction portion of `TrendScraper.scrapeAxios` (part_006 lines
270-308): `extractedTrends` is the result of the source's own
`extractionLogic` on the fetched page; the fallback cascade runs only when
it is empty.  The whole body sits in a try/catch that returns `[]` on any
error, so a cascade that throws yields an empty list for the source.  The
second component records which fallback strategies were invoked. -/
def scrapeAxios (extractedTrends : List TrendData) (run : StratRun) :
    List TrendData × List Strat :=
  if extractedTrends.length = 0 then
    match applyFallbackExtraction run with
    | (.ok l, invoked) => (l, invoked)
    | (.error _, invoked) => ([], invoked)
  else (extractedTrends, [])

/-- Poll loop shared verbatim by `ApifyInstagramHashtagStatsSource` and
`ApifyTikTokHashtagSource` (apify-instagram-hashtag-stats.ts lines 63-86
and 308-331):

  let runStatus = 'RUNNING'; let attempts = 0; const maxAttempts = 20;
  while (runStatus === 'RUNNING' && attempts < maxAttempts) \x7b
    await sleep(...);
    const statusResponse = await axios.get(...);   // may throw
    runStatus = statusResponse.data.data.status;
    attempts++;
  \x7d

`statusAt i` is the outcome of the i-th status request (the value read
when `attempts = i`): the status string, or the transport error thrown by
`axios.get`, which is not caught inside the loop and so aborts it.
`fuel` stands for `maxAttempts - attempts`, making the recursion
structural; the returned pair is `(attempts, runStatus)` at loop exit. -/
def pollLoopAux (statusAt : Nat → Except String String) :
    Nat → Nat → String → Except String (Nat × String)
  | 0, attempts, runStatus => .ok (attempts, runStatus)
  | fuel + 1, attempts, runStatus =>
    if runStatus = "RUNNING" then
      match statusAt attempts with
      | .error e => .error e
      | .ok s => pollLoopAux statusAt fuel (attempts + 1) s
    else .ok (attempts, runStatus)

/-- The poll loop started from its initial state (`runStatus = 'RUNNING'`,
`attempts = 0`). -/
def pollLoop (statusAt : Nat → Except String String) (maxAttempts : Nat) :
    Except String (Nat × String) :=
  pollLoopAux statusAt maxAttempts 0 "RUNNING"

/-- The `maxAttempts` constant of both Apify sources. -/
def apifyMaxAttempts : Nat := 20

/-- Terminal statuses of the external job API (spec section 6 vocabulary
minus `RUNNING`). -/
def terminalStatuses : List String :=
  ["SUCCEEDED", "FAILED", "TIMED_OUT", "ABORTED"]

/-- Remainder of `extractionLogic` around the poll loop: the loop's result
feeds `if (runStatus !== 'SUCCEEDED') return [];` and otherwise the
dataset items are fetched and transformed (abstracted as `results`).  The
whole `extractionLogic` body sits in a try/catch returning `[]`, so an
error escaping the loop also yields `[]`. -/
def pollAndFetch (statusAt : Nat → Except String String) (maxAttempts : Nat)
    (results : List TrendData) : List TrendData :=
  match pollLoop statusAt maxAttempts with
  | .error _ => []
  | .ok (_, finalStatus) => if finalStatus = "SUCCEEDED" then results else []

/-- Reference-cell model of the mutable JS object graph behind
`ProgressManager.getStatus` (part_000 lines 126-128).  The status object
holds scalar fields directly and its three array-valued fields as
references (`Nat` addresses) into a heap of arrays.  Scalar fields beyond
those needed for the claims are elided. -/
structure StatusObj where
  isRunning : Bool
  progress : Rat
  completedSources : Nat
  totalSources : Nat
  sourcesRef : Nat
  trendsRef : Nat
  errorsRef : Nat
deriving DecidableEq, Repr

/-- Heap of JS arrays addressed by `Nat` references. -/
structure JsHeap where
  sourceArrays : Nat → List SourceProgress
  trendArrays : Nat → List TrendData
  errorArrays : Nat → List String

/-- Embedding of `getStatus(): return \x7b ...this.status \x7d` (part_000
line 127).  The object spread produces a fresh object whose fields carry
the same values as the original; for array-valued fields that value is
the reference, so the snapshot shares its `sources`, `trends` and
`errors` arrays with the tracker-internal object. -/
def getStatus (s : StatusObj) : StatusObj :=
  { isRunning := s.isRunning
    progress := s.progress
    completedSources := s.completedSources
    totalSources := s.totalSources
    sourcesRef := s.sourcesRef
    trendsRef := s.trendsRef
    errorsRef := s.errorsRef }

/-- Reads the sources array a status object refers to. -/
def readSources (h : JsHeap) (s : StatusObj) : List SourceProgress :=
  h.sourceArrays s.sourcesRef

/-- Overwrites the array stored at reference `r`: the effect of a caller
mutating (in place) an array it holds a reference to. -/
def writeSourcesAt (h : JsHeap) (r : Nat) (l : List SourceProgress) : JsHeap :=
  { h with sourceArrays := fun j => if j = r then l else h.sourceArrays j }

/-! Helper lemmas about the embedded list primitives. -/

/-- Characterization of `jsFindIndex`: a found index is in bounds, its
element satisfies the predicate, and no earlier element does. -/
theorem jsFindIndex_spec {α : Type} (p : α → Bool) (d : α) :
    ∀ (l : List α) (i : Nat), jsFindIndex p l = some i →
      i < l.length ∧ p (l.getD i d) = true ∧ ∀ j, j < i → p (l.getD j d) = false := by
  intro l
  induction l with
  | nil => intro i h; simp [jsFindIndex] at h
  | cons a rest ih =>
    intro i h
    by_cases hpa : p a = true
    · simp [jsFindIndex, hpa] at h
      subst h
      exact ⟨Nat.succ_pos _, by simpa using hpa, fun j hj => absurd hj (Nat.not_lt_zero j)⟩
    · simp [jsFindIndex, hpa] at h
      obtain ⟨i2, h2, hi⟩ := h
      obtain ⟨hb, hp, hmin⟩ := ih i2 h2
      subst hi
      refine ⟨by simpa using hb, by simpa using hp, ?_⟩
      intro j hj
      cases j with
      | zero => simpa using hpa
      | succ j2 => simpa using hmin j2 (by omega)

/-- Reading back the element just written by `List.set`. -/
theorem getD_set_self {α : Type} (d : α) :
    ∀ (l : List α) (i : Nat) (a : α), i < l.length → (l.set i a).getD i d = a := by
  intro l
  induction l with
  | nil => intro i a h; simp at h
  | cons b rest ih =>
    intro i a h
    cases i with
    | zero => simp
    | succ j => simpa using ih j a (by simpa using h)

/-! Shared concrete inputs used by witnesses and counterexamples. -/

/-- Tracker state freshly initialized with the single TikTok source. -/
def exSt0 : ScrapingStatus := initScraping (some ["Apify TikTok Hashtag Trends"])

/-- The state after marking the TikTok source completed. -/
def exSt1 : ScrapingStatus :=
  updateSourceProgress exSt0 "Apify TikTok Hashtag Trends" .completed 100 0 none none

/-- The state after subsequently marking the TikTok source running again. -/
def exSt2 : ScrapingStatus :=
  updateSourceProgress exSt1 "Apify TikTok Hashtag Trends" .running 0 0 none none

/-- A sample extracted record. -/
def tSample : TrendData :=
  { hashtag := "#Trend", popularity := "Trending", category := "General"
    platform := "TikTok", region := "Global" }

/-! Claim C1. -/

/-- C1: a call to `TrendScraper.scrapeAllSources` made while a previous run
is still in progress (`isRunning = true`) returns immediately with an empty
trends array and mutates neither the scraper state nor the progress
tracker's state, whatever the in-flight run's continuation would do; the
request is a soft no-op, never queued or merged. -/
theorem scrapeAllSources_alreadyRunning (st : ScraperState)
    (runBody : ScraperState → ScraperState × ScrapeResult) (h : st.isRunning = true) :
    scrapeAllSources st runBody =
      (st, { trends := [], report := "Scraping already in progress" }) := by
  simp [scrapeAllSources, h]

/-- Witness for C1 at a concrete busy state and a concrete (mutating) run body. -/
def busyState : ScraperState := { isRunning := true, pm := initScraping none }

/-- A run body that would mutate the tracker if it were ever executed. -/
def mutatingBody : ScraperState → ScraperState × ScrapeResult :=
  fun s => ({ s with pm := completeScraping s.pm [tSample] },
            { trends := [tSample], report := "ran" })

/-- Witness: C1 instantiated at `busyState` and `mutatingBody`. -/
theorem scrapeAllSources_alreadyRunning_witness :
    scrapeAllSources busyState mutatingBody =
      (busyState, { trends := [], report := "Scraping already in progress" }) :=
  scrapeAllSources_alreadyRunning busyState mutatingBody rfl

/-! Claim C5. -/

/-- C5 counterexample: the update sequence completed-then-running on the
same source makes the tracker's per-source status go from `completed` back
to `running`; the claimed transition discipline (never Completed to
Running) is violated by an observable update sequence. -/
theorem updateSourceProgress_reopensCompleted_cex :
    exSt1.sources.map (fun s => s.status) = [SourceStatus.completed] ∧
    exSt2.sources.map (fun s => s.status) = [SourceStatus.running] :=
  ⟨rfl, rfl⟩

/-- C5 amended: `updateSourceProgress` enforces no transition discipline;
a matching update overwrites the entry's status with exactly the given
argument regardless of its previous value (last-write-wins), so in
particular a terminal entry can be set back to `running`. -/
theorem updateSourceProgress_lastWriteWins (st : ScrapingStatus) (sourceName : String)
    (status : SourceStatus) (progress : Rat) (trends : Nat) (details error : Option String)
    (i : Nat) (h : findSourceIdx st.sources sourceName = some i) :
    ((updateSourceProgress st sourceName status progress trends details error).sources.getD i
      default).status = status := by
  have hb := (jsFindIndex_spec _ default st.sources i h).1
  unfold updateSourceProgress
  simp only [h]
  rw [getD_set_self _ _ _ _ hb]

/-- Witness: the amended C5 applied to the concrete completed state `exSt1`. -/
theorem updateSourceProgress_lastWriteWins_witness :
    ((updateSourceProgress exSt1 "Apify TikTok Hashtag Trends" .running 0 0 none
      none).sources.getD 0 default).status = SourceStatus.running :=
  updateSourceProgress_lastWriteWins exSt1 "Apify TikTok Hashtag Trends" .running 0 0 none
    none 0 rfl

/-! Claim C10. -/

/-- Lowercasing model used only to state the spec's claimed lookup policy. -/
def strToLower (s : String) : String :=
  ⟨s.data.map Char.toLower⟩

/-- Lookup policy as claim C10 words it, for refinement comparison with
the code's `findSourceIdx`: the given source name matches a configured
name when one is a case-insensitive prefix of the other (covering display
names differing from the configured key only in suffix or letter case). -/
def specClaimedLookup (sources : List SourceProgress) (sourceName : String) : Option Nat :=
  jsFindIndex
    (fun s =>
      startsWithChars (strToLower sourceName).data (strToLower s.name).data ||
      startsWithChars (strToLower s.name).data (strToLower sourceName).data)
    sources

/-- C10 counterexample: for the configured name `Apify TikTok Hashtag
Trends` and the update name differing only in letter case, the claimed
case-insensitive prefix policy routes to entry 0, but the code's lookup
(case-sensitive substring test on the first token) finds nothing and the
update is dropped, leaving the state unchanged. -/
theorem findSourceIdx_caseSensitive_cex :
    specClaimedLookup exSt0.sources "apify tiktok hashtag trends" = some 0 ∧
    findSourceIdx exSt0.sources "apify tiktok hashtag trends" = none ∧
    updateSourceProgress exSt0 "apify tiktok hashtag trends" .running 0 0 none none = exSt0 :=
  ⟨rfl, rfl, rfl⟩

/-- C10 amended: the update target is looked up by taking the first
whitespace-delimited token of the given source name and selecting the
first configured entry whose name contains that token as a case-sensitive
substring; when no entry matches, the update is discarded and the state
is unchanged. -/
theorem updateSourceProgress_lookupPolicy (st : ScrapingStatus) (sourceName : String)
    (status : SourceStatus) (progress : Rat) (trends : Nat) (details error : Option String) :
    (findSourceIdx st.sources sourceName = none →
      updateSourceProgress st sourceName status progress trends details error = st) ∧
    (∀ i, findSourceIdx st.sources sourceName = some i →
      i < st.sources.length ∧
      strIncludes (st.sources.getD i default).name (firstToken sourceName) = true ∧
      ∀ j, j < i → strIncludes (st.sources.getD j default).name (firstToken sourceName) = false) := by
  constructor
  · intro h
    unfold updateSourceProgress
    simp only [h]
  · intro i h
    exact jsFindIndex_spec _ default st.sources i h

/-- Witness: the amended C10 at a non-matching name (update dropped) and a
matching one (entry 0 contains the first token of the given name). -/
theorem updateSourceProgress_lookupPolicy_witness :
    updateSourceProgress exSt0 "zzz unknown" .running 0 0 none none = exSt0 ∧
    strIncludes (exSt0.sources.getD 0 default).name (firstToken "Apify TikTok") = true :=
  ⟨(updateSourceProgress_lookupPolicy exSt0 "zzz unknown" .running 0 0 none none).1 rfl,
   ((updateSourceProgress_lookupPolicy exSt0 "Apify TikTok" .running 0 0 none none).2
     0 rfl).2.1⟩

/-! Claim C9. -/

/-- Concrete internal status object of the tracker: its array fields live
at heap references 0, 1, 2. -/
def pmObj : StatusObj :=
  { isRunning := true, progress := 0, completedSources := 0, totalSources := 1
    sourcesRef := 0, trendsRef := 1, errorsRef := 2 }

/-- Concrete heap backing `pmObj`. -/
def heap0 : JsHeap :=
  { sourceArrays := fun _ => [initEntry "Apify TikTok Hashtag Trends"]
    trendArrays := fun _ => []
    errorArrays := fun _ => [] }

/-- Entry a caller writes into the snapshot's sources array. -/
def mutatedEntry : SourceProgress :=
  { name := "mutated by caller", status := .failed, progress := 0, trends := 0 }

/-- C9: evidence for the code bug.  `getStatus` returns the object spread
of the internal status, whose `sourcesRef` is the very same reference as
the tracker's own; therefore a caller mutating the snapshot's sources
array changes what the tracker itself (and any subsequent snapshot)
observes, even though the calls through `getStatus` were supposed to be
read-only.  The third conjunct shows the observation genuinely changed. -/
theorem getStatus_sharesState_bug :
    (getStatus pmObj).sourcesRef = pmObj.sourcesRef ∧
    readSources (writeSourcesAt heap0 (getStatus pmObj).sourcesRef [mutatedEntry]) pmObj
      = [mutatedEntry] ∧
    readSources heap0 pmObj ≠ [mutatedEntry] := by
  refine ⟨rfl, rfl, ?_⟩
  intro h
  simp [readSources, heap0, pmObj, mutatedEntry, initEntry] at h

/-! Claims C3, C6, C8: the fallback extraction cascade. -/

/-- The assisted (AI) strategy is never among the strategies invoked by
steps 1-3 of the cascade. -/
theorem aiAnalysis_not_in_steps123 (run : StratRun) :
    Strat.aiAnalysis ∉ (fallbackSteps123 run).2 := by
  unfold fallbackSteps123
  rcases h1 : run .hashtagPattern with e1 | t1
  · simp
  · by_cases c1 : t1.length < 3
    · simp only [if_pos c1]
      rcases h2 : run .textPattern with e2 | t2
      · simp
      · by_cases c2 : (t1 ++ t2).length < 3
        · simp only [if_pos c2]
          rcases h3 : run .urlPattern with e3 | t3
          · simp
          · simp
        · simp only [if_neg c2]; simp
    · simp only [if_neg c1]; simp

/-- C3: when the structured (primary) extraction yields at least one
record, `scrapeAxios` returns exactly those records and invokes no
fallback strategy at all (in particular not the assisted LLM strategy);
and within a cascade run the assisted strategy is invoked only when
strategies 1-3 collectively accumulated fewer than 2 records. -/
theorem cascade_costControl :
    (∀ (extracted : List TrendData) (run : StratRun), 1 ≤ extracted.length →
      scrapeAxios extracted run = (extracted, [])) ∧
    (∀ run : StratRun, Strat.aiAnalysis ∈ (applyFallbackExtraction run).2 →
      ∃ l, (fallbackSteps123 run).1 = .ok l ∧ l.length < 2) := by
  constructor
  · intro extracted run h
    have hne : ¬ extracted.length = 0 := by omega
    simp [scrapeAxios, hne]
  · intro run hmem
    have hnot := aiAnalysis_not_in_steps123 run
    unfold applyFallbackExtraction at hmem
    rcases hfs : fallbackSteps123 run with ⟨r, invoked⟩
    rw [hfs] at hmem hnot
    rcases r with e | trends
    · simp at hmem hnot
      exact absurd hmem hnot
    · by_cases c : trends.length < 2
      · exact ⟨trends, rfl, c⟩
      · simp [c] at hmem hnot
        exact absurd hmem hnot

/-- A strategy assignment where every strategy yields nothing, driving the
cascade all the way to the assisted strategy. -/
def runAllEmpty : StratRun := fun _ => .ok []

/-- Witness: C3 applied at one structured record (fallback never invoked)
and at the all-empty cascade (assisted invoked, fewer than 2 records
accumulated before it). -/
theorem cascade_costControl_witness :
    scrapeAxios [tSample] runAllEmpty = ([tSample], []) ∧
    ∃ l, (fallbackSteps123 runAllEmpty).1 = .ok l ∧ l.length < 2 :=
  ⟨cascade_costControl.1 [tSample] runAllEmpty (by decide),
   cascade_costControl.2 runAllEmpty (by decide)⟩

/-- A strategy assignment whose first (hashtag-pattern) strategy throws
while the second strategy would have yielded a record. -/
def runThrow1 : StratRun
  | .hashtagPattern => .error ("boom")
  | .textPattern => .ok [tSample]
  | .urlPattern => .ok []
  | .aiAnalysis => .ok []

/-- C6 counterexample: when the hashtag-pattern strategy throws, the
exception is not caught inside the cascade: the cascade aborts at once
with that error — the remaining strategies are never invoked (the invoked
list stops at the throwing strategy) even though the text-pattern strategy
had a record to contribute — and the per-source catch in `scrapeAxios`
turns the whole source into an empty result. -/
theorem cascade_abortsOnStrategyThrow_cex :
    applyFallbackExtraction runThrow1 = (.error ("boom"), [.hashtagPattern]) ∧
    scrapeAxios [] runThrow1 = ([], [.hashtagPattern]) ∧
    runThrow1 .textPattern = .ok [tSample] :=
  ⟨rfl, rfl, rfl⟩

/-- C6 amended: only the assisted (AI) strategy catches its own exception,
which is then treated as zero records and the cascade completes normally;
an exception thrown by any of strategies 1-3 propagates out of the
cascade, skips every remaining strategy, and is caught only at the source
level, where `scrapeAxios` yields an empty record list for that source. -/
theorem cascade_catchSemantics :
    (∀ (run : StratRun) (l : List TrendData) (invoked : List Strat) (e : String),
      fallbackSteps123 run = (.ok l, invoked) → l.length < 2 → run .aiAnalysis = .error e →
      applyFallbackExtraction run = (.ok (l.take 10), invoked ++ [.aiAnalysis])) ∧
    (∀ (run : StratRun) (e : String) (invoked : List Strat),
      fallbackSteps123 run = (.error e, invoked) →
      applyFallbackExtraction run = (.error e, invoked) ∧
      scrapeAxios [] run = ([], invoked)) := by
  constructor
  · intro run l invoked e hfs hlen hai
    unfold applyFallbackExtraction
    rw [hfs]
    simp [extractWithAIAnalysis, hai, hlen]
  · intro run e invoked hfs
    constructor
    · unfold applyFallbackExtraction
      rw [hfs]
    · unfold scrapeAxios applyFallbackExtraction
      rw [hfs]
      simp

/-- A strategy assignment where only the assisted strategy throws. -/
def runAiThrow : StratRun
  | .aiAnalysis => .error ("ai down")
  | _ => .ok []

/-- Witness: the amended C6 applied to the AI-throwing cascade (which
completes, treating the AI strategy as zero records) and to `runThrow1`
(whose strategy-1 exception aborts the cascade and empties the source). -/
theorem cascade_catchSemantics_witness :
    applyFallbackExtraction runAiThrow =
      (.ok [], [.hashtagPattern, .textPattern, .urlPattern, .aiAnalysis]) ∧
    applyFallbackExtraction runThrow1 = (.error ("boom"), [.hashtagPattern]) ∧
    scrapeAxios [] runThrow1 = ([], [.hashtagPattern]) := by
  refine ⟨?_, ?_, ?_⟩
  · have h := cascade_catchSemantics.1 runAiThrow []
      [.hashtagPattern, .textPattern, .urlPattern] "ai down" rfl (by decide) rfl
    simpa using h
  · exact (cascade_catchSemantics.2 runThrow1 "boom" [.hashtagPattern] rfl).1
  · exact (cascade_catchSemantics.2 runThrow1 "boom" [.hashtagPattern] rfl).2

/-- A strategy assignment where the first two strategies both emit the
very same `#Trend` record. -/
def runDup : StratRun
  | .hashtagPattern => .ok [tSample]
  | .textPattern => .ok [tSample]
  | .urlPattern => .ok []
  | .aiAnalysis => .ok []

/-- C8 counterexample: two strategies both emitting the tag `#Trend` (here
even with identical case) contribute two records to the cascade output,
not one: the cascade performs no cross-strategy deduplication, case
insensitive or otherwise. -/
theorem cascade_noCrossStrategyDedup_cex :
    (applyFallbackExtraction runDup).1 = .ok [tSample, tSample] ∧
    tSample.hashtag = "#Trend" ∧
    runDup .hashtagPattern = .ok [tSample] ∧
    runDup .textPattern = .ok [tSample] :=
  ⟨rfl, rfl, rfl, rfl⟩

/-- C8 amended: across strategies the cascade accumulates records by plain
concatenation (`trends.push(...strategy)`) with no deduplication against
the records already accumulated; deduplication exists only inside an
individual strategy's own extraction.  A tag emitted by two strategies
therefore appears once per emitting strategy, subject only to the final
cap of 10. -/
theorem cascade_concatNoDedup :
    (∀ (run : StratRun) (t1 t2 : List TrendData),
      run .hashtagPattern = .ok t1 → run .textPattern = .ok t2 →
      t1.length < 3 → ¬(t1 ++ t2).length < 3 →
      fallbackSteps123 run = (.ok (t1 ++ t2), [.hashtagPattern, .textPattern])) ∧
    (∀ (run : StratRun) (t1 t2 t3 : List TrendData),
      run .hashtagPattern = .ok t1 → run .textPattern = .ok t2 → run .urlPattern = .ok t3 →
      t1.length < 3 → (t1 ++ t2).length < 3 →
      fallbackSteps123 run = (.ok ((t1 ++ t2) ++ t3),
        [.hashtagPattern, .textPattern, .urlPattern])) := by
  constructor
  · intro run t1 t2 h1 h2 c1 c2
    have c2h : ¬t1.length + t2.length < 3 := by simpa using c2
    unfold fallbackSteps123
    rw [h1, h2]
    simp [c1, c2h]
  · intro run t1 t2 t3 h1 h2 h3 c1 c2
    have c2h : t1.length + t2.length < 3 := by simpa using c2
    unfold fallbackSteps123
    rw [h1, h2, h3]
    simp [c1, c2h]

/-- Witness: the amended C8 applied to `runDup`, whose duplicate-emitting
strategies produce the duplicated accumulation. -/
theorem cascade_concatNoDedup_witness :
    fallbackSteps123 runDup =
      (.ok [tSample, tSample], [.hashtagPattern, .textPattern, .urlPattern]) := by
  have h := cascade_concatNoDedup.2 runDup [tSample] [tSample] [] rfl rfl rfl
    (by decide) (by decide)
  simpa using h

/-! Claims C2 and C7: the Apify poll loop. -/

/-- With a non-RUNNING status in hand the loop exits at once, whatever
fuel remains. -/
theorem pollLoopAux_exit (statusAt : Nat → Except String String) (fuel attempts : Nat)
    (s : String) (h : s ≠ "RUNNING") :
    pollLoopAux statusAt fuel attempts s = .ok (attempts, s) := by
  cases fuel with
  | zero => rfl
  | succ f => simp [pollLoopAux, h]

/-- Skipping `k` consecutive successful RUNNING polls advances the attempt
counter by `k` and consumes `k` fuel. -/
theorem pollLoopAux_skip (statusAt : Nat → Except String String) :
    ∀ (k fuel a : Nat), (∀ j, j < k → statusAt (a + j) = .ok ("RUNNING")) →
      pollLoopAux statusAt (k + fuel) a "RUNNING" =
        pollLoopAux statusAt fuel (a + k) "RUNNING" := by
  intro k
  induction k with
  | zero => intro fuel a _; simp
  | succ k ih =>
    intro fuel a h
    have h0 : statusAt a = .ok ("RUNNING") := by simpa using h 0 (Nat.succ_pos k)
    have heq : k + 1 + fuel = (k + fuel) + 1 := by omega
    rw [heq]
    show pollLoopAux statusAt ((k + fuel) + 1) a "RUNNING" = _
    simp only [pollLoopAux, if_pos rfl, h0]
    have hrest : ∀ j, j < k → statusAt (a + 1 + j) = .ok ("RUNNING") := by
      intro j hj
      have hx := h (j + 1) (by omega)
      have hy : a + 1 + j = a + (j + 1) := by omega
      rw [hy]
      exact hx
    have := ih fuel (a + 1) hrest
    rw [this]
    have hz : a + 1 + k = a + (k + 1) := by omega
    rw [hz]
    simp

/-- The mock status sequence Running, Running, Succeeded from the claim. -/
def mockSeq3 : Nat → Except String String :=
  fun i => .ok (["RUNNING", "RUNNING", "SUCCEEDED"].getD i "SUCCEEDED")

/-- C2: the poll loop performs exactly 3 status polls on the mock sequence
Running, Running, Succeeded; it stops immediately (after k+1 polls) as
soon as the k-th poll reports any terminal status; and a run that never
leaves RUNNING within maxAttempts polls ends the loop normally after
exactly maxAttempts polls, upon which the extraction returns the
soft-timeout empty record list instead of throwing or escalating. -/
theorem awaitCompletion_pollSemantics :
    pollLoop mockSeq3 apifyMaxAttempts = .ok (3, "SUCCEEDED") ∧
    (∀ (statusAt : Nat → Except String String) (n k : Nat) (stat : String),
      k < n → (∀ j, j < k → statusAt j = .ok ("RUNNING")) →
      stat ∈ terminalStatuses → statusAt k = .ok stat →
      pollLoop statusAt n = .ok (k + 1, stat)) ∧
    (∀ (statusAt : Nat → Except String String) (n : Nat) (results : List TrendData),
      (∀ i, i < n → statusAt i = .ok ("RUNNING")) →
      pollLoop statusAt n = .ok (n, "RUNNING") ∧ pollAndFetch statusAt n results = []) := by
  refine ⟨rfl, ?_, ?_⟩
  · intro statusAt n k stat hk hrun hterm hstat
    have hne : stat ≠ "RUNNING" := by
      simp [terminalStatuses] at hterm
      rcases hterm with rfl | rfl | rfl | rfl <;> decide
    unfold pollLoop
    rw [show n = k + (n - k) from by omega]
    rw [pollLoopAux_skip statusAt k (n - k) 0 (fun j hj => by simpa using hrun j hj)]
    rw [show n - k = (n - k - 1) + 1 from by omega]
    simp only [Nat.zero_add, pollLoopAux, if_pos rfl, hstat]
    exact pollLoopAux_exit statusAt (n - k - 1) (k + 1) stat hne
  · intro statusAt n results h
    have hpoll : pollLoop statusAt n = .ok (n, "RUNNING") := by
      unfold pollLoop
      have hs := pollLoopAux_skip statusAt n 0 0 (fun j hj => by simpa using h j hj)
      simpa [pollLoopAux] using hs
    refine ⟨hpoll, ?_⟩
    unfold pollAndFetch
    rw [hpoll]
    simp

/-- A status sequence that reports RUNNING twice and then FAILED. -/
def seqFail2 : Nat → Except String String :=
  fun i => .ok (if i < 2 then "RUNNING" else "FAILED")

/-- A status sequence that never leaves RUNNING. -/
def seqAlwaysRun : Nat → Except String String :=
  fun _ => .ok ("RUNNING")

/-- Witness: C2 at the mock sequence, at a concrete terminal stop after
3 polls, and at a concrete soft timeout with maxAttempts 2. -/
theorem awaitCompletion_pollSemantics_witness :
    pollLoop mockSeq3 apifyMaxAttempts = .ok (3, "SUCCEEDED") ∧
    pollLoop seqFail2 5 = .ok (3, "FAILED") ∧
    pollAndFetch seqAlwaysRun 2 [tSample] = [] := by
  refine ⟨awaitCompletion_pollSemantics.1, ?_, ?_⟩
  · exact awaitCompletion_pollSemantics.2.1 seqFail2 5 2 "FAILED" (by omega)
      (fun j hj => by simp [seqFail2, hj]) (by decide) (by simp [seqFail2])
  · exact (awaitCompletion_pollSemantics.2.2 seqAlwaysRun 2 [tSample] (fun i _ => rfl)).2

/-- A status sequence whose first request fails in transport and which
would report SUCCEEDED from the second request on. -/
def seqE : Nat → Except String String :=
  fun i => if i = 0 then .error ("ECONNRESET") else .ok ("SUCCEEDED")

/-- C7 counterexample: a transport error on the very first status request
aborts polling immediately: the loop result is the error itself, the
outer catch maps it to an empty record list, and the 19 remaining
attempts are never used even though the next poll would have reported
SUCCEEDED — the failure surfaces long before maxAttempts is exhausted,
contradicting the claim that an error only wastes one attempt. -/
theorem pollLoop_abortsOnTransportError_cex :
    pollLoop seqE apifyMaxAttempts = .error "ECONNRESET" ∧
    pollAndFetch seqE apifyMaxAttempts [tSample] = [] ∧
    seqE 1 = .ok "SUCCEEDED" :=
  ⟨rfl, rfl, rfl⟩

/-- C7 amended: the status request inside the poll loop is not guarded by
any catch, so the first transport error (after any number of successful
RUNNING polls, at any point before maxAttempts) propagates out of the
loop immediately and the extraction's outer catch yields an empty record
list; polling does not continue past a failed request. -/
theorem pollLoop_transportErrorPropagates (statusAt : Nat → Except String String)
    (n k : Nat) (e : String) (results : List TrendData)
    (hk : k < n) (hrun : ∀ j, j < k → statusAt j = .ok ("RUNNING"))
    (herr : statusAt k = .error e) :
    pollLoop statusAt n = .error e ∧ pollAndFetch statusAt n results = [] := by
  have hpoll : pollLoop statusAt n = .error e := by
    unfold pollLoop
    rw [show n = k + (n - k) from by omega]
    rw [pollLoopAux_skip statusAt k (n - k) 0 (fun j hj => by simpa using hrun j hj)]
    rw [show n - k = (n - k - 1) + 1 from by omega]
    simp only [Nat.zero_add, pollLoopAux, if_pos rfl, herr]
    simp
  refine ⟨hpoll, ?_⟩
  unfold pollAndFetch
  rw [hpoll]

/-- Witness: the amended C7 at the concrete sequence `seqE` with
maxAttempts 5 and the error arriving on the first request. -/
theorem pollLoop_transportErrorPropagates_witness :
    pollLoop seqE 5 = .error "ECONNRESET" ∧ pollAndFetch seqE 5 [] = [] :=
  pollLoop_transportErrorPropagates seqE 5 0 "ECONNRESET" []
    (by omega) (fun j hj => absurd hj (Nat.not_lt_zero j)) rfl

/-! Claim C4: the aggregate percent invariant of the progress tracker. -/

/-- Invariant tying the tracker's aggregate fields to its per-source
statuses: the source list has exactly `totalSources` entries,
`completedSources` is the recomputed per-status count, and `progress` is
the percent formula over the two counters. -/
def progressInv (st : ScrapingStatus) : Prop :=
  st.sources.length = st.totalSources ∧
  st.completedSources = completedCount st.sources ∧
  st.progress = 100 * (st.completedSources : Rat) / (st.totalSources : Rat)

/-- The completed count never exceeds the number of entries. -/
theorem completedCount_le_length (l : List SourceProgress) : completedCount l ≤ l.length :=
  List.length_filter_le _ _

/-- A freshly initialized source list counts no entry completed. -/
theorem completedCount_map_initEntry (names : List String) :
    completedCount (names.map initEntry) = 0 := by
  induction names with
  | nil => rfl
  | cons n rest ih =>
    have hp : ((initEntry n).status == SourceStatus.completed ||
        (initEntry n).status == SourceStatus.failed) = false := rfl
    simpa [completedCount, List.filter_cons, hp] using ih

/-- Session initialization establishes the invariant. -/
theorem initScraping_inv (sourceNames : Option (List String)) :
    progressInv (initScraping sourceNames) := by
  refine ⟨by simp [initScraping], ?_, ?_⟩
  · simp [initScraping, completedCount_map_initEntry]
  · simp [initScraping]

/-- Every single `updateSourceProgress` call preserves the invariant. -/
theorem updateSourceProgress_inv (st : ScrapingStatus) (sourceName : String)
    (status : SourceStatus) (progress : Rat) (trends : Nat) (details error : Option String)
    (h : progressInv st) :
    progressInv (updateSourceProgress st sourceName status progress trends details error) := by
  obtain ⟨h1, h2, h3⟩ := h
  unfold updateSourceProgress
  cases hidx : findSourceIdx st.sources sourceName with
  | none => exact ⟨h1, h2, h3⟩
  | some i =>
    refine ⟨?_, rfl, ?_⟩
    · simpa [List.length_set] using h1
    · show ((completedCount _ : Rat) / (st.totalSources : Rat)) * 100 =
        100 * (completedCount _ : Rat) / (st.totalSources : Rat)
      ring

/-- Any sequence of update calls preserves the invariant. -/
theorem applyUpdates_inv (calls : List UpdateCall) :
    ∀ st : ScrapingStatus, progressInv st → progressInv (applyUpdates st calls) := by
  induction calls with
  | nil => intro st h; exact h
  | cons c rest ih =>
    intro st h
    exact ih _ (updateSourceProgress_inv st c.sourceName c.status c.progress c.trends
      c.details c.error h)

/-- C4: after any sequence of update calls following session
initialization (any interleaving of per-source statuses), the aggregate
percent field equals 100 times completedSources over totalSources,
completedSources is exactly the count recomputed from the per-source
statuses (never independently set), and completedSources never exceeds
totalSources. -/
theorem progress_percentInvariant (names : Option (List String)) (calls : List UpdateCall) :
    let st := applyUpdates (initScraping names) calls
    st.progress = 100 * (st.completedSources : Rat) / (st.totalSources : Rat) ∧
    st.completedSources = completedCount st.sources ∧
    st.completedSources ≤ st.totalSources := by
  intro st
  obtain ⟨h1, h2, h3⟩ := applyUpdates_inv calls (initScraping names) (initScraping_inv names)
  refine ⟨h3, h2, ?_⟩
  calc st.completedSources = completedCount st.sources := h2
    _ ≤ st.sources.length := completedCount_le_length st.sources
    _ = st.totalSources := h1

end TrendDash
